import Mathlib

/-!
Verification of `src/UnitTest/Cpp/DbManagerTest.OleDb.Access.h`.

The file declares one managed C++ class,
`Cpp::DbManagerTest::OleDb::Access`, which extends the (unseen) base
test fixture `Cpp::DbManagerTest::Test` and declares exactly one member:
the property accessor `get_ConfigurationString`, whose body is the single
statement `return "Access.OleDb";`.

We embed the class shallowly.  The base class `Test` is not part of the
provided sources, so its state is kept abstract as a type parameter; the
capability contract it requires of subclasses is modelled from the spec.
-/

namespace Cpp
namespace DbManagerTest

/-- Modelled from the spec: the shared base test-fixture capability
`Cpp::DbManagerTest::Test` is not among the provided sources.  The spec
describes it only as an unseen collaborator holding whatever state the base
class holds, so its state is kept fully abstract as a type parameter. -/
structure Test (σ : Type) : Type where
  baseState : σ

/-- Modelled from the spec: the polymorphic capability contract the base
test class requires of a fixture, described in the spec as "a
string-returning configuration accessor". -/
class ConfigurationStringProvider (α : Type) : Type where
  configurationStringOf : α → String

namespace OleDb

/-- The `Access` test fixture of `DbManagerTest.OleDb.Access.h`: it extends
`Cpp::DbManagerTest::Test` and its class body declares no data members of
its own (the only declaration is the property accessor). -/
structure Access (σ : Type) extends Test σ : Type

/-- The property accessor `get_ConfigurationString`; its body is the single
statement `return "Access.OleDb";`. -/
def Access.get_ConfigurationString {σ : Type} (_ : Access σ) : String :=
  "Access.OleDb"

/-- Nullable-reference view of the accessor's returned `String*`: the body
returns a string literal, which in managed C++ is a non-null reference,
embedded as `some` of the string value. -/
def Access.get_ConfigurationStringRef {σ : Type} (a : Access σ) : Option String :=
  some a.get_ConfigurationString

/-- Error-monad view of a call to the accessor: the body contains no throw
site and no failing operation, so the call always produces `Except.ok` of
the returned value. -/
def Access.get_ConfigurationStringExc {σ ε : Type} (a : Access σ) : Except ε String :=
  Except.ok a.get_ConfigurationString

/-- State-passing view of a call to the accessor: the body reads no field
and performs no assignment, so the call returns the string together with
the unchanged instance. -/
def Access.callGetConfigurationString {σ : Type} (a : Access σ) : String × Access σ :=
  (a.get_ConfigurationString, a)

/-- The operations the `Access` fixture itself defines: its class body
declares exactly one, the configuration-string property accessor. -/
inductive FixtureOp : Type
  | getConfigurationString : FixtureOp

/-- Running one fixture operation on an instance. -/
def Access.runOp {σ : Type} (a : Access σ) : FixtureOp → String × Access σ
  | FixtureOp.getConfigurationString => a.callGetConfigurationString

/-- Running a sequence of fixture operations, keeping the final state. -/
def Access.runOps {σ : Type} (a : Access σ) : List FixtureOp → Access σ
  | [] => a
  | op :: ops => ((a.runOp op).2).runOps ops

/-- The names of the member declarations appearing in the body of class
`Access` in `DbManagerTest.OleDb.Access.h`: exactly one, the property
accessor. -/
def Access.declaredMembers : List String :=
  ["get_ConfigurationString"]

/-- The names of the data members declared by class `Access` itself (not
inherited): its class body declares none. -/
def Access.ownDataMembers : List String :=
  []

instance {σ : Type} : ConfigurationStringProvider (Access σ) where
  configurationStringOf := Access.get_ConfigurationString

end OleDb
end DbManagerTest
end Cpp

open Cpp.DbManagerTest Cpp.DbManagerTest.OleDb

/-- C1: for every instance of the `Access` fixture (over any base state) and
every invocation, `get_ConfigurationString` takes no input and returns
exactly the string `"Access.OleDb"`. -/
theorem C1_get_ConfigurationString_value {σ : Type} (a : Access σ) :
    a.get_ConfigurationString = "Access.OleDb" := rfl

/-- C2: `get_ConfigurationString` is deterministic: any two invocations, on
the same instance or on two distinct instances over possibly different base
states, return value-equal strings, with no dependence on any shared state. -/
theorem C2_get_ConfigurationString_deterministic {σ τ : Type}
    (a : Access σ) (b : Access τ) :
    a.get_ConfigurationString = b.get_ConfigurationString := rfl

/-- C3: the accessor cannot fail: in the error-monad embedding of the call,
every invocation returns `Except.ok` of a string and never an error
outcome, for any error type. -/
theorem C3_get_ConfigurationString_no_failure {σ ε : Type} (a : Access σ) :
    Access.get_ConfigurationStringExc (ε := ε) a = Except.ok "Access.OleDb" := rfl

/-- C4: calling the accessor is side-effect-free: in the state-passing
embedding, the post-state of every call is exactly the pre-state, and the
returned value is the configuration string. -/
theorem C4_get_ConfigurationString_no_side_effect {σ : Type} (a : Access σ) :
    (a.callGetConfigurationString).2 = a ∧
      (a.callGetConfigurationString).1 = "Access.OleDb" :=
  ⟨rfl, rfl⟩

/-- C5: the configuration identifier is an immutable constant: after running
any sequence of the fixture's operations, the accessor still yields
`"Access.OleDb"`, and each single operation preserves both the instance and
the configuration value. -/
theorem C5_configuration_immutable {σ : Type} (a : Access σ)
    (ops : List FixtureOp) (op : FixtureOp) :
    (a.runOps ops).get_ConfigurationString = "Access.OleDb" ∧
      ((a.runOp op).2).get_ConfigurationString = "Access.OleDb" ∧
      (a.runOp op).2 = a :=
  ⟨rfl, rfl, by cases op; rfl⟩

/-- C6: the accessor is total: on every fixture instance the invocation
terminates with a result, namely the configuration string. -/
theorem C6_get_ConfigurationString_total {σ : Type} (a : Access σ) :
    ∃ r : String, a.get_ConfigurationString = r :=
  ⟨"Access.OleDb", rfl⟩

/-- C7: the `Access` fixture extends the base test-fixture capability `Test`
and its class body declares exactly one member, the configuration-name
accessor, which returns the literal `"Access.OleDb"`; it satisfies the
base contract of a string-returning configuration accessor. -/
theorem C7_access_satisfies_base_contract {σ : Type} (a : Access σ) :
    Access.declaredMembers = ["get_ConfigurationString"] ∧
      ConfigurationStringProvider.configurationStringOf a = "Access.OleDb" ∧
      (a.toTest).baseState = a.baseState :=
  ⟨rfl, rfl, rfl⟩

/-- C8: the accessor never returns a null string reference: in the
nullable-reference embedding every invocation yields `some` of a string
that is non-empty. -/
theorem C8_get_ConfigurationString_non_null {σ : Type} (a : Access σ) :
    ∃ s : String, a.get_ConfigurationStringRef = some s ∧ s ≠ "" :=
  ⟨"Access.OleDb", rfl, by decide⟩

/-- C9: the `Access` class declares no data members of its own, and the
accessor's result is independent of which instance it is called on and of
any per-instance base state. -/
theorem C9_access_stateless {σ τ : Type} (a : Access σ) (b : Access τ) :
    Access.ownDataMembers = [] ∧
      a.get_ConfigurationString = b.get_ConfigurationString :=
  ⟨rfl, rfl⟩
